import Mathlib

/-!
Shallow embedding of the UmbraX-Engine Vulkan renderer
(`qe-renderer-vulkan/src/main/cpp`), with theorems checking the
natural-language specification against the code.

Machine integers are modelled as `Nat` with explicit `% 2 ^ w`
where overflow can occur (the `uint64_t` resource-handle counter and the
`uint32_t` sentinel `UINT32_MAX`).
-/

namespace UmbraX

/-- The modulus `2 ^ 64` of the C++ `uint64_t` arithmetic of `nextResourceId`. -/
def U64 : Nat := 2 ^ 64

/-- The sentinel `UINT32_MAX` used for unset queue-family indices. -/
def U32MAX : Nat := 2 ^ 32 - 1

/-! ### Resource handle issuance (C1)

`VulkanRendererNative` holds `uint64_t nextResourceId`, initialised to `1`
in the constructor (vulkan_renderer_native.cpp:33).  Every successful
`loadMesh` (vk_buffer.cpp:146), `loadTexture` (vk_texture.cpp:87),
`compileShader` (vk_shader.cpp:23) and `createGraphicsPipeline`
(vulkan_renderer_native.cpp:514) returns `nextResourceId++`; the failing
paths of `loadTexture`/`compileShader` return `0` before reaching the
increment.  `loadMesh` and `createGraphicsPipeline` have no failing return. -/

/-- The handle-issuing state: the `nextResourceId` field (`uint64_t`). -/
structure ResIdState where
  nextResourceId : Nat
  deriving Repr, DecidableEq

/-- Constructor state: `nextResourceId(1)` (vulkan_renderer_native.cpp:33). -/
def initResIdState : ResIdState := ⟨1⟩

/-- One resource-creating call.  `loadTexture` and `compileShader` carry
whether all of their Vulkan sub-calls succeed; `loadMesh` (vk_buffer.cpp)
and the `createGraphicsPipeline` stub cannot return the sentinel. -/
inductive ResOp where
  | loadMesh
  | loadTexture (ok : Bool)
  | compileShader (ok : Bool)
  | createGraphicsPipeline
  deriving Repr, DecidableEq

/-- Whether the call reaches `nextResourceId++` (i.e. does not take a
`return 0` failure path). -/
def ResOp.succeeds : ResOp → Bool
  | .loadMesh => true
  | .loadTexture ok => ok
  | .compileShader ok => ok
  | .createGraphicsPipeline => true

/-- Effect of one call on the renderer's handle counter: a successful call
returns the current `nextResourceId` and post-increments it with `uint64_t`
wrap-around; a failed call returns the sentinel `0` and leaves the counter
untouched. -/
def runResOp (s : ResIdState) (op : ResOp) : Nat × ResIdState :=
  if op.succeeds then (s.nextResourceId, ⟨(s.nextResourceId + 1) % U64⟩)
  else (0, s)

/-- Run a sequence of calls on one renderer instance, collecting
`(call succeeded, returned handle)` in call order. -/
def runResOps (s : ResIdState) : List ResOp → List (Bool × Nat) × ResIdState
  | [] => ([], s)
  | op :: rest =>
      ((op.succeeds, (runResOp s op).1) :: (runResOps (runResOp s op).2 rest).1,
       (runResOps (runResOp s op).2 rest).2)

/-- Handles returned by the successful calls of a sequence, in call order. -/
def succHandles (s : ResIdState) (ops : List ResOp) : List Nat :=
  (((runResOps s ops).1.filter (·.1)).map (·.2))

/-- Number of successful calls in a sequence. -/
def numSucc (ops : List ResOp) : Nat := (ops.filter (·.succeeds)).length

theorem succHandles_nil (s : ResIdState) : succHandles s [] = [] := rfl

theorem succHandles_cons_succ (s : ResIdState) (op : ResOp) (rest : List ResOp)
    (h : op.succeeds = true) :
    succHandles s (op :: rest) =
      s.nextResourceId :: succHandles ⟨(s.nextResourceId + 1) % U64⟩ rest := by
  simp [succHandles, runResOps, runResOp, h]

theorem succHandles_cons_fail (s : ResIdState) (op : ResOp) (rest : List ResOp)
    (h : op.succeeds = false) :
    succHandles s (op :: rest) = succHandles s rest := by
  simp [succHandles, runResOps, runResOp, h]

theorem numSucc_cons_succ (op : ResOp) (rest : List ResOp) (h : op.succeeds = true) :
    numSucc (op :: rest) = numSucc rest + 1 := by
  simp [numSucc, List.filter_cons, h]

theorem numSucc_cons_fail (op : ResOp) (rest : List ResOp) (h : op.succeeds = false) :
    numSucc (op :: rest) = numSucc rest := by
  simp [numSucc, List.filter_cons, h]

theorem succHandles_of_numSucc_zero :
    ∀ (ops : List ResOp) (s : ResIdState), numSucc ops = 0 → succHandles s ops = [] := by
  intro ops
  induction ops with
  | nil => intro s _; rfl
  | cons op rest ih =>
      intro s h
      by_cases hs : op.succeeds = true
      · rw [numSucc_cons_succ op rest hs] at h; omega
      · have hf : op.succeeds = false := eq_false_of_ne_true hs
        rw [numSucc_cons_fail op rest hf] at h
        rw [succHandles_cons_fail s op rest hf]
        exact ih s h

theorem u64_pos : 0 < U64 := by
  have : U64 = 18446744073709551616 := by norm_num [U64]
  omega

/-- As long as the counter does not wrap, the successful handles of a run
starting at counter `c` are exactly `c, c+1, ..., c + numSucc - 1`. -/
theorem succHandles_eq_range' :
    ∀ (ops : List ResOp) (c : Nat), c < U64 → c + numSucc ops ≤ U64 →
      succHandles ⟨c⟩ ops = List.range' c (numSucc ops) := by
  intro ops
  induction ops with
  | nil => intro c _ _; simp [succHandles_nil, numSucc]
  | cons op rest ih =>
      intro c hc hle
      by_cases hs : op.succeeds = true
      · rw [numSucc_cons_succ op rest hs] at hle ⊢
        rw [succHandles_cons_succ ⟨c⟩ op rest hs]
        show c :: succHandles ⟨(c + 1) % U64⟩ rest = List.range' c (numSucc rest + 1)
        rw [List.range'_succ]
        by_cases hw : c + 1 < U64
        · rw [Nat.mod_eq_of_lt hw]
          rw [ih (c + 1) hw (by omega)]
        · have h0 : numSucc rest = 0 := by omega
          rw [h0, succHandles_of_numSucc_zero rest _ h0]
          simp
      · have hf : op.succeeds = false := eq_false_of_ne_true hs
        rw [numSucc_cons_fail op rest hf] at hle ⊢
        rw [succHandles_cons_fail ⟨c⟩ op rest hf]
        exact ih c hc hle

/-- Every failed call in a run returns the sentinel handle 0. -/
theorem failed_calls_return_zero :
    ∀ (ops : List ResOp) (s : ResIdState) (p : Bool × Nat),
      p ∈ (runResOps s ops).1 → p.1 = false → p.2 = 0 := by
  intro ops
  induction ops with
  | nil => intro s p hp _; simp [runResOps] at hp
  | cons op rest ih =>
      intro s p hp hf
      simp only [runResOps, List.mem_cons] at hp
      rcases hp with h | h
      · subst h
        simp only at hf
        simp [runResOp, hf]
      · exact ih _ p h hf

/-- A run of `n` consecutive `loadMesh` calls from counter `c < 2^64`
returns the handles `(c + k) % 2^64` in order. -/
theorem runResOps_replicate_loadMesh :
    ∀ (n : Nat) (c : Nat), c < U64 →
      (runResOps ⟨c⟩ (List.replicate n ResOp.loadMesh)).1 =
        (List.range n).map (fun k => (true, (c + k) % U64)) := by
  intro n
  induction n with
  | zero => intro c _; simp [runResOps]
  | succ n ih =>
      intro c hc
      rw [List.replicate_succ]
      show (true, c) :: (runResOps ⟨(c + 1) % U64⟩ (List.replicate n ResOp.loadMesh)).1 =
        (List.range (n + 1)).map (fun k => (true, (c + k) % U64))
      rw [ih ((c + 1) % U64) (Nat.mod_lt _ u64_pos)]
      rw [List.range_succ_eq_map]
      simp only [List.map_cons, List.map_map]
      refine congrArg₂ List.cons ?_ ?_
      · rw [Nat.add_zero, Nat.mod_eq_of_lt hc]
      · apply List.map_congr_left
        intro k _
        simp only [Function.comp]
        rw [Nat.mod_add_mod]
        have : c + 1 + k = c + (k + 1) := by omega
        rw [this]

def c1SampleOps : List ResOp :=
  [ResOp.loadMesh, ResOp.loadTexture true, ResOp.compileShader false,
   ResOp.createGraphicsPipeline]

/-- C1 (counterexample).  The claim says a successful call never returns
handle 0.  But `nextResourceId` is a `uint64_t`: after `2^64 - 1` successful
calls the counter wraps, and the `2^64`-th successful `loadMesh` call returns
handle 0 (and breaks strict monotonicity). -/
theorem c1_wraparound_cex :
    ((runResOps initResIdState (List.replicate U64 ResOp.loadMesh)).1).getLast? =
      some (true, 0) := by
  have h1 : (1 : Nat) < U64 := by
    have : U64 = 18446744073709551616 := by norm_num [U64]
    omega
  rw [show initResIdState = ⟨1⟩ from rfl]
  rw [runResOps_replicate_loadMesh U64 1 h1]
  have hsplit : List.range U64 = List.range (U64 - 1) ++ [U64 - 1] := by
    conv_lhs => rw [show U64 = (U64 - 1) + 1 by omega]
    exact List.range_succ (U64 - 1)
  rw [hsplit, List.map_append, List.map_singleton, List.getLast?_concat]
  have e0 : (1 + (U64 - 1)) % U64 = 0 := by
    rw [show 1 + (U64 - 1) = U64 by omega, Nat.mod_self]
  rw [e0]

/-- C1 (amended).  For every sequence of `loadMesh` / `loadTexture` /
`compileShader` / `createGraphicsPipeline` calls on one renderer instance
containing fewer than `2^64` successful calls, the handles returned by the
successful calls are pairwise distinct and strictly increasing in call
order and never 0, and handle 0 is returned exactly by the failed calls. -/
theorem c1_handles_strictly_increasing (ops : List ResOp)
    (h : numSucc ops < U64) :
    (succHandles initResIdState ops).Pairwise (· < ·) ∧
    (∀ x ∈ succHandles initResIdState ops, x ≠ 0) ∧
    (∀ p ∈ (runResOps initResIdState ops).1, p.1 = false → p.2 = 0) := by
  have h1 : (1 : Nat) < U64 := by
    have : U64 = 18446744073709551616 := by norm_num [U64]
    omega
  have e := succHandles_eq_range' ops 1 h1 (by omega)
  rw [show initResIdState = ⟨1⟩ from rfl]
  refine ⟨?_, ?_, ?_⟩
  · rw [e]; exact List.pairwise_lt_range' 1 (numSucc ops)
  · rw [e]
    intro x hx
    rw [List.mem_range'_1] at hx
    omega
  · intro p hp hf
    exact failed_calls_return_zero ops ⟨1⟩ p hp hf

/-- Witness for `c1_handles_strictly_increasing` at a concrete call
sequence. -/
theorem c1_handles_strictly_increasing_witness :
    numSucc c1SampleOps < U64 ∧
    ((succHandles initResIdState c1SampleOps).Pairwise (· < ·) ∧
     (∀ x ∈ succHandles initResIdState c1SampleOps, x ≠ 0) ∧
     (∀ p ∈ (runResOps initResIdState c1SampleOps).1, p.1 = false → p.2 = 0)) :=
  ⟨by decide, c1_handles_strictly_increasing c1SampleOps (by decide)⟩

/-! ### Queue-family discovery (C6)

`createLogicalDevice` (vk_device.cpp:51-133, and equally
vulkan_renderer_native.cpp:194-257) scans all queue families once; for each
index `i` in enumeration order it overwrites the recorded
graphics/compute/transfer family with `i` whenever family `i` offers that
capability.  The accumulators start at `UINT32_MAX`; if the graphics one is
still `UINT32_MAX` after the scan the function fails, and the
compute/transfer ones alias the graphics family when still `UINT32_MAX`. -/

/-- The three capability bits of `VkQueueFamilyProperties::queueFlags`
inspected by the scan. -/
structure QueueFamily where
  graphics : Bool
  compute : Bool
  transfer : Bool
  deriving Repr, DecidableEq, Inhabited

/-- The scan loop (vk_device.cpp:66-76): `i` is the index of the head of the
remaining list; `g`, `c`, `t` are the three accumulators. -/
def scanQueueFamilies : List QueueFamily → Nat → Nat → Nat → Nat → Nat × Nat × Nat
  | [], _, g, c, t => (g, c, t)
  | f :: rest, i, g, c, t =>
      scanQueueFamilies rest (i + 1)
        (if f.graphics then i else g)
        (if f.compute then i else c)
        (if f.transfer then i else t)

/-- Queue-family selection of `createLogicalDevice`: scan from index 0 with
`UINT32_MAX` accumulators, fail when no graphics-capable family was found,
else alias compute/transfer to the graphics family when still unset
(vk_device.cpp:62-88). -/
def selectQueueFamilies (fams : List QueueFamily) : Option (Nat × Nat × Nat) :=
  match scanQueueFamilies fams 0 U32MAX U32MAX U32MAX with
  | (g, c, t) =>
      if g = U32MAX then none
      else some (g, if c = U32MAX then g else c, if t = U32MAX then g else t)

/-- Index of the last element of a list satisfying `p`, if any. -/
def lastIdx (p : α → Bool) : List α → Option Nat
  | [] => none
  | a :: as =>
      match lastIdx p as with
      | some j => some (j + 1)
      | none => if p a then some 0 else none

/-- Value of one scan accumulator: the absolute index of the last match if
there is one, the unchanged accumulator otherwise. -/
def accLast (p : QueueFamily → Bool) (fams : List QueueFamily) (i acc : Nat) : Nat :=
  match lastIdx p fams with
  | some j => i + j
  | none => acc

theorem lastIdx_cons (p : α → Bool) (a : α) (as : List α) :
    lastIdx p (a :: as) = (match lastIdx p as with
      | some j => some (j + 1)
      | none => if p a then some 0 else none) := rfl

theorem accLast_cons (p : QueueFamily → Bool) (f : QueueFamily)
    (rest : List QueueFamily) (i acc : Nat) :
    accLast p (f :: rest) i acc = accLast p rest (i + 1) (if p f then i else acc) := by
  unfold accLast
  rw [lastIdx_cons]
  cases h : lastIdx p rest with
  | some j => simp [h]; omega
  | none =>
      by_cases hp : p f
      · simp [h, hp]
      · simp [h, hp]

theorem scanQueueFamilies_eq :
    ∀ (fams : List QueueFamily) (i g c t : Nat),
      scanQueueFamilies fams i g c t =
        (accLast (·.graphics) fams i g, accLast (·.compute) fams i c,
         accLast (·.transfer) fams i t) := by
  intro fams
  induction fams with
  | nil => intro i g c t; simp [scanQueueFamilies, accLast, lastIdx]
  | cons f rest ih =>
      intro i g c t
      show scanQueueFamilies rest (i + 1) (if f.graphics then i else g)
          (if f.compute then i else c) (if f.transfer then i else t) = _
      rw [ih]
      rw [accLast_cons, accLast_cons, accLast_cons]

theorem lastIdx_lt_length (p : α → Bool) :
    ∀ (l : List α) (j : Nat), lastIdx p l = some j → j < l.length := by
  intro l
  induction l with
  | nil => intro j h; simp [lastIdx] at h
  | cons a as ih =>
      intro j h
      unfold lastIdx at h
      cases hr : lastIdx p as with
      | some j' =>
          rw [hr] at h
          simp at h
          have := ih j' hr
          simp [← h]
          omega
      | none =>
          rw [hr] at h
          by_cases hp : p a
          · simp [hp] at h
            simp [← h]
          · simp [hp] at h

theorem lastIdx_none_iff (p : α → Bool) :
    ∀ (l : List α), lastIdx p l = none ↔ ∀ a ∈ l, p a = false := by
  intro l
  induction l with
  | nil => simp [lastIdx]
  | cons a as ih =>
      unfold lastIdx
      cases hr : lastIdx p as with
      | some j => simp [ih.symm, hr]
      | none =>
          by_cases hp : p a
          · simp [hp, ih.symm, hr]
          · simp [hp, ih.symm, hr]

/-- Proposition that `j` is the position of the last element of `fams` with capability `p`. -/
def IsLastCap (p : QueueFamily → Bool) (fams : List QueueFamily) (j : Nat) : Prop :=
  j < fams.length ∧ p fams[j]! = true ∧
    ∀ k, j < k → k < fams.length → p fams[k]! = false

theorem lastIdx_isLastCap (p : QueueFamily → Bool) :
    ∀ (l : List QueueFamily) (j : Nat), lastIdx p l = some j → IsLastCap p l j := by
  intro l
  induction l with
  | nil => intro j h; simp [lastIdx] at h
  | cons a as ih =>
      intro j h
      unfold lastIdx at h
      cases hr : lastIdx p as with
      | some j' =>
          rw [hr] at h
          simp at h
          obtain ⟨h1, h2, h3⟩ := ih j' hr
          subst h
          refine ⟨by simp; omega, by simpa using h2, ?_⟩
          intro k hk1 hk2
          match k, hk1 with
          | k' + 1, _ =>
              simp only [List.getElem!_cons_succ]
              exact h3 k' (by omega) (by simp at hk2; omega)
      | none =>
          rw [hr] at h
          by_cases hp : p a
          · simp [hp] at h
            subst h
            refine ⟨by simp, by simpa using hp, ?_⟩
            intro k hk1 hk2
            match k, hk1 with
            | k' + 1, _ =>
                simp only [List.getElem!_cons_succ]
                have hlt : k' < as.length := by simp at hk2; omega
                rw [getElem!_pos as k' hlt]
                exact (lastIdx_none_iff p as).1 hr _ (List.getElem_mem hlt)
          · simp [hp] at h

theorem accLast_zero (p : QueueFamily → Bool) (fams : List QueueFamily) (acc : Nat) :
    accLast p fams 0 acc = (lastIdx p fams).getD acc := by
  unfold accLast
  cases h : lastIdx p fams <;> simp

theorem selectQueueFamilies_eq (fams : List QueueFamily) :
    selectQueueFamilies fams =
      (if (lastIdx (·.graphics) fams).getD U32MAX = U32MAX then none
       else some ((lastIdx (·.graphics) fams).getD U32MAX,
         (if (lastIdx (·.compute) fams).getD U32MAX = U32MAX
          then (lastIdx (·.graphics) fams).getD U32MAX
          else (lastIdx (·.compute) fams).getD U32MAX),
         (if (lastIdx (·.transfer) fams).getD U32MAX = U32MAX
          then (lastIdx (·.graphics) fams).getD U32MAX
          else (lastIdx (·.transfer) fams).getD U32MAX))) := by
  unfold selectQueueFamilies
  rw [scanQueueFamilies_eq]
  rw [accLast_zero, accLast_zero, accLast_zero]

def c6Fams : List QueueFamily := [⟨true, true, true⟩, ⟨true, true, true⟩]

/-- C6 (counterexample).  The scan loop has no early exit: an index
offering a capability always overwrites the recorded family, so the *last*
matching family wins, not the first.  With two graphics/compute/transfer
capable families the selection yields family 1 although family 0 already
offers every capability. -/
theorem c6_records_last_not_first_cex :
    (c6Fams[0]!).graphics = true ∧ (c6Fams[0]!).compute = true ∧
    (c6Fams[0]!).transfer = true ∧
    selectQueueFamilies c6Fams = some (1, 1, 1) := by decide

/-- C6 (amended).  For every queue-family list (of realistic length, so
that a real index never collides with the `UINT32_MAX` sentinel), selection
fails exactly when no family offers graphics; otherwise it records, for
each of the graphics/compute/transfer capabilities, the *last* family in
enumeration order offering that capability, and a capability offered by no
family aliases the recorded graphics family. -/
theorem c6_queue_family_discovery (fams : List QueueFamily)
    (hlen : fams.length ≤ U32MAX) :
    (selectQueueFamilies fams = none ↔ ∀ f ∈ fams, f.graphics = false) ∧
    (∀ g c t, selectQueueFamilies fams = some (g, c, t) →
      IsLastCap (·.graphics) fams g ∧
      (IsLastCap (·.compute) fams c ∨ ((∀ f ∈ fams, f.compute = false) ∧ c = g)) ∧
      (IsLastCap (·.transfer) fams t ∨ ((∀ f ∈ fams, f.transfer = false) ∧ t = g))) := by
  have key := selectQueueFamilies_eq fams
  cases hg : lastIdx (·.graphics) fams with
  | none =>
      rw [hg] at key
      rw [Option.getD_none, if_pos rfl] at key
      constructor
      · rw [key]
        constructor
        · intro _
          exact (lastIdx_none_iff (·.graphics) fams).1 hg
        · intro _
          rfl
      · intro g c t h
        rw [key] at h
        cases h
  | some jg =>
      have hjg : jg ≠ U32MAX := by
        have := lastIdx_lt_length (·.graphics) fams jg hg
        omega
      rw [hg] at key
      simp only [Option.getD_some, if_neg hjg] at key
      constructor
      · constructor
        · intro h
          rw [key] at h
          cases h
        · intro hall
          have hn := (lastIdx_none_iff (·.graphics) fams).2 hall
          rw [hg] at hn
          cases hn
      · intro g c t h
        rw [key] at h
        injection h with h
        rw [Prod.ext_iff] at h
        obtain ⟨hgg, h⟩ := h
        rw [Prod.ext_iff] at h
        obtain ⟨hcc, htt⟩ := h
        subst hgg
        refine ⟨lastIdx_isLastCap (·.graphics) fams jg hg, ?_, ?_⟩
        · cases hc : lastIdx (·.compute) fams with
          | some jc =>
              have hjc : jc ≠ U32MAX := by
                have := lastIdx_lt_length (·.compute) fams jc hc
                omega
              rw [hc] at hcc
              simp only [Option.getD_some, if_neg hjc] at hcc
              exact Or.inl (hcc ▸ lastIdx_isLastCap (·.compute) fams jc hc)
          | none =>
              rw [hc] at hcc
              simp only [Option.getD_none, if_pos rfl] at hcc
              exact Or.inr ⟨(lastIdx_none_iff (·.compute) fams).1 hc, hcc.symm⟩
        · cases ht : lastIdx (·.transfer) fams with
          | some jt =>
              have hjt : jt ≠ U32MAX := by
                have := lastIdx_lt_length (·.transfer) fams jt ht
                omega
              rw [ht] at htt
              simp only [Option.getD_some, if_neg hjt] at htt
              exact Or.inl (htt ▸ lastIdx_isLastCap (·.transfer) fams jt ht)
          | none =>
              rw [ht] at htt
              simp only [Option.getD_none, if_pos rfl] at htt
              exact Or.inr ⟨(lastIdx_none_iff (·.transfer) fams).1 ht, htt.symm⟩

def c6WitnessFams : List QueueFamily := [⟨true, false, true⟩, ⟨false, true, false⟩]

/-- Witness for `c6_queue_family_discovery` at a concrete family list. -/
theorem c6_queue_family_discovery_witness :
    c6WitnessFams.length ≤ U32MAX ∧
    ((selectQueueFamilies c6WitnessFams = none ↔
        ∀ f ∈ c6WitnessFams, f.graphics = false) ∧
     (∀ g c t, selectQueueFamilies c6WitnessFams = some (g, c, t) →
       IsLastCap (·.graphics) c6WitnessFams g ∧
       (IsLastCap (·.compute) c6WitnessFams c ∨
         ((∀ f ∈ c6WitnessFams, f.compute = false) ∧ c = g)) ∧
       (IsLastCap (·.transfer) c6WitnessFams t ∨
         ((∀ f ∈ c6WitnessFams, f.transfer = false) ∧ t = g)))) :=
  ⟨by decide, c6_queue_family_discovery c6WitnessFams (by decide)⟩

/-! ### `initialize()` (C2)

`initialize` (vulkan_renderer_native.cpp:44-79) runs createInstance →
pickPhysicalDevice → createLogicalDevice → createCommandPools →
createSyncObjects → createDescriptorPool; on the failure of any step it
logs and immediately `return false` — it contains no destruction call. -/

/-- Outcome of every Vulkan call `initialize` can make. -/
structure InitEnv where
  instanceOk : Bool
  deviceCount : Nat
  queueFams : List QueueFamily
  createDeviceOk : Bool
  cmdPoolOk : Bool
  computePoolOk : Bool
  imageSemOk : Bool
  renderSemOk : Bool
  fenceOk : Bool
  descPoolOk : Bool
  deriving Repr, DecidableEq

/-- Liveness of the objects `initialize` can create (all `VK_NULL_HANDLE`
in the constructor, vulkan_renderer_native.cpp:11-38). -/
structure InitState where
  instanceLive : Bool
  physicalDevicePicked : Bool
  deviceLive : Bool
  commandPoolLive : Bool
  computeCommandPoolLive : Bool
  imageAvailableSemaphoreLive : Bool
  renderFinishedSemaphoreLive : Bool
  inFlightFenceLive : Bool
  descriptorPoolLive : Bool
  deriving Repr, DecidableEq

/-- Constructor state: nothing live. -/
def initState0 : InitState :=
  ⟨false, false, false, false, false, false, false, false, false⟩

/-- Step `createInstance` (vk_instance.cpp:9-45): one `vkCreateInstance`. -/
def createInstanceStep (env : InitEnv) (s : InitState) : Bool × InitState :=
  if env.instanceOk then (true, { s with instanceLive := true }) else (false, s)

/-- Step `pickPhysicalDevice` (vk_device.cpp:9-49): fails iff the enumeration
reports zero devices, else selects the first device. -/
def pickPhysicalDeviceStep (env : InitEnv) (s : InitState) : Bool × InitState :=
  if env.deviceCount = 0 then (false, s)
  else (true, { s with physicalDevicePicked := true })

/-- Step `createLogicalDevice` (vk_device.cpp:51-133): queue-family selection
(fails when no graphics family), then one `vkCreateDevice`. -/
def createLogicalDeviceStep (env : InitEnv) (s : InitState) : Bool × InitState :=
  match selectQueueFamilies env.queueFams with
  | none => (false, s)
  | some _ =>
      if env.createDeviceOk then (true, { s with deviceLive := true })
      else (false, s)

/-- Step `createCommandPools` (vulkan_renderer_native.cpp:259-275): graphics
pool, then compute pool; an early `return false` leaves the first pool
live. -/
def createCommandPoolsStep (env : InitEnv) (s : InitState) : Bool × InitState :=
  if env.cmdPoolOk then
    if env.computePoolOk then
      (true, { s with commandPoolLive := true, computeCommandPoolLive := true })
    else (false, { s with commandPoolLive := true })
  else (false, s)

/-- Step `createSyncObjects` (vulkan_renderer_native.cpp:277-292): two
semaphores and a fence combined with short-circuiting `||`, so a failing
call prevents the later ones while the earlier objects stay live. -/
def createSyncObjectsStep (env : InitEnv) (s : InitState) : Bool × InitState :=
  if env.imageSemOk then
    if env.renderSemOk then
      if env.fenceOk then
        (true, { s with imageAvailableSemaphoreLive := true,
                        renderFinishedSemaphoreLive := true,
                        inFlightFenceLive := true })
      else (false, { s with imageAvailableSemaphoreLive := true,
                            renderFinishedSemaphoreLive := true })
    else (false, { s with imageAvailableSemaphoreLive := true })
  else (false, s)

/-- Step `createDescriptorPool` (vulkan_renderer_native.cpp:294-307). -/
def createDescriptorPoolStep (env : InitEnv) (s : InitState) : Bool × InitState :=
  if env.descPoolOk then (true, { s with descriptorPoolLive := true })
  else (false, s)

/-- Function `initialize` (vulkan_renderer_native.cpp:44-79): run the six steps in
order, returning `false` as soon as one fails, with the state reached so
far. -/
def initRenderer (env : InitEnv) : Bool × InitState :=
  match createInstanceStep env initState0 with
  | (false, s) => (false, s)
  | (true, s1) =>
    match pickPhysicalDeviceStep env s1 with
    | (false, s) => (false, s)
    | (true, s2) =>
      match createLogicalDeviceStep env s2 with
      | (false, s) => (false, s)
      | (true, s3) =>
        match createCommandPoolsStep env s3 with
        | (false, s) => (false, s)
        | (true, s4) =>
          match createSyncObjectsStep env s4 with
          | (false, s) => (false, s)
          | (true, s5) => createDescriptorPoolStep env s5

/-- Which objects the successful prefix of a run creates. -/
def instanceCreated (env : InitEnv) : Bool := env.instanceOk

def devicePicked (env : InitEnv) : Bool :=
  env.instanceOk && decide (env.deviceCount ≠ 0)

def deviceCreated (env : InitEnv) : Bool :=
  devicePicked env && (selectQueueFamilies env.queueFams).isSome &&
    env.createDeviceOk

def commandPoolCreated (env : InitEnv) : Bool := deviceCreated env && env.cmdPoolOk

def computeCommandPoolCreated (env : InitEnv) : Bool :=
  commandPoolCreated env && env.computePoolOk

def imageSemCreated (env : InitEnv) : Bool :=
  computeCommandPoolCreated env && env.imageSemOk

def renderSemCreated (env : InitEnv) : Bool := imageSemCreated env && env.renderSemOk

def fenceCreated (env : InitEnv) : Bool := renderSemCreated env && env.fenceOk

def descPoolCreated (env : InitEnv) : Bool := fenceCreated env && env.descPoolOk

/-- Full characterisation of the state `initialize` leaves behind: each
object is live iff its creating call ran and succeeded — nothing is ever
destroyed, whatever the outcome. -/
theorem initRenderer_state_eq (env : InitEnv) :
    (initRenderer env).2 =
      ⟨instanceCreated env, devicePicked env, deviceCreated env,
       commandPoolCreated env, computeCommandPoolCreated env,
       imageSemCreated env, renderSemCreated env, fenceCreated env,
       descPoolCreated env⟩ := by
  obtain ⟨io, dc, qf, cdo, cpo, cco, iso, rso, fo, dpo⟩ := env
  simp only [initRenderer, createInstanceStep, pickPhysicalDeviceStep,
    createLogicalDeviceStep, createCommandPoolsStep, createSyncObjectsStep,
    createDescriptorPoolStep, instanceCreated, devicePicked, deviceCreated,
    commandPoolCreated, computeCommandPoolCreated, imageSemCreated,
    renderSemCreated, fenceCreated, descPoolCreated, initState0]
  by_cases hdc : dc = 0 <;>
    cases hsel : selectQueueFamilies qf <;>
      cases io <;> cases cdo <;> cases cpo <;> cases cco <;> cases iso <;>
        cases rso <;> cases fo <;> cases dpo <;>
          simp_all

def c2FailEnv : InitEnv :=
  { instanceOk := true, deviceCount := 0, queueFams := [],
    createDeviceOk := false, cmdPoolOk := false, computePoolOk := false,
    imageSemOk := false, renderSemOk := false, fenceOk := false,
    descPoolOk := false }

/-- C2 (counterexample).  When `vkCreateInstance` succeeds but device
enumeration reports no devices, `initialize` returns `false` with the
instance still live: the claimed teardown of earlier steps never happens. -/
theorem c2_no_teardown_cex :
    (initRenderer c2FailEnv).1 = false ∧
    (initRenderer c2FailEnv).2.instanceLive = true := by decide

/-- C2 (amended).  When any step of `initialize` fails, it returns
`false` immediately, and every object created by the earlier successful
steps is still live when it returns — `initialize` performs no teardown;
the objects are reclaimed only by a later `shutdown`. -/
theorem c2_failed_init_keeps_objects (env : InitEnv)
    (h : (initRenderer env).1 = false) :
    (instanceCreated env = true → (initRenderer env).2.instanceLive = true) ∧
    (deviceCreated env = true → (initRenderer env).2.deviceLive = true) ∧
    (commandPoolCreated env = true → (initRenderer env).2.commandPoolLive = true) ∧
    (computeCommandPoolCreated env = true →
      (initRenderer env).2.computeCommandPoolLive = true) ∧
    (imageSemCreated env = true →
      (initRenderer env).2.imageAvailableSemaphoreLive = true) ∧
    (renderSemCreated env = true →
      (initRenderer env).2.renderFinishedSemaphoreLive = true) ∧
    (fenceCreated env = true → (initRenderer env).2.inFlightFenceLive = true) ∧
    (descPoolCreated env = true → (initRenderer env).2.descriptorPoolLive = true) := by
  rw [initRenderer_state_eq env]
  exact ⟨fun h => h, fun h => h, fun h => h, fun h => h, fun h => h,
    fun h => h, fun h => h, fun h => h⟩

/-- Witness for `c2_failed_init_keeps_objects`: a run where the two command
pools and the instance exist but the semaphore creation fails. -/
def c2WitnessEnv : InitEnv :=
  { instanceOk := true, deviceCount := 1,
    queueFams := [⟨true, true, true⟩],
    createDeviceOk := true, cmdPoolOk := true, computePoolOk := true,
    imageSemOk := false, renderSemOk := false, fenceOk := false,
    descPoolOk := false }

theorem c2_failed_init_keeps_objects_witness :
    (initRenderer c2WitnessEnv).1 = false ∧
    ((instanceCreated c2WitnessEnv = true →
        (initRenderer c2WitnessEnv).2.instanceLive = true) ∧
     (deviceCreated c2WitnessEnv = true →
        (initRenderer c2WitnessEnv).2.deviceLive = true) ∧
     (commandPoolCreated c2WitnessEnv = true →
        (initRenderer c2WitnessEnv).2.commandPoolLive = true) ∧
     (computeCommandPoolCreated c2WitnessEnv = true →
        (initRenderer c2WitnessEnv).2.computeCommandPoolLive = true) ∧
     (imageSemCreated c2WitnessEnv = true →
        (initRenderer c2WitnessEnv).2.imageAvailableSemaphoreLive = true) ∧
     (renderSemCreated c2WitnessEnv = true →
        (initRenderer c2WitnessEnv).2.renderFinishedSemaphoreLive = true) ∧
     (fenceCreated c2WitnessEnv = true →
        (initRenderer c2WitnessEnv).2.inFlightFenceLive = true) ∧
     (descPoolCreated c2WitnessEnv = true →
        (initRenderer c2WitnessEnv).2.descriptorPoolLive = true)) :=
  ⟨by decide, c2_failed_init_keeps_objects c2WitnessEnv (by decide)⟩

/-! ### `beginFrame` / `endFrame` (C3)

`beginFrame` (vulkan_renderer_native.cpp:467-472) waits on and resets the
in-flight fence, then acquires the next image signalling the
image-available semaphore.  `endFrame` (vulkan_renderer_native.cpp:474-484)
builds a `VkPresentInfoKHR` waiting on the render-finished semaphore and
calls `vkQueuePresentKHR` — and nothing else: there is no `vkQueueSubmit`
and nothing ever signals the render-finished semaphore or the in-flight
fence. -/

/-- The renderer's two semaphores. -/
inductive Sem where
  | imageAvailable
  | renderFinished
  deriving Repr, DecidableEq

/-- The Vulkan calls the frame functions can make. -/
inductive FrameCall where
  | waitForFence
  | resetFence
  | acquireNextImage (signalSem : Sem)
  | queueSubmit (signalSem : Sem) (signalFence : Bool)
  | queuePresent (waitSem : Sem) (imageIndex : Nat)
  deriving Repr, DecidableEq

/-- Call trace of `beginFrame` (vulkan_renderer_native.cpp:467-472). -/
def beginFrameTrace : List FrameCall :=
  [.waitForFence, .resetFence, .acquireNextImage .imageAvailable]

/-- Call trace of `endFrame` (vulkan_renderer_native.cpp:474-484): a single
`vkQueuePresentKHR` on the graphics queue, waiting on the render-finished
semaphore, presenting the stored image index. -/
def endFrameTrace (imageIndex : Nat) : List FrameCall :=
  [.queuePresent .renderFinished imageIndex]

def FrameCall.isSubmitCall : FrameCall → Bool
  | .queueSubmit _ _ => true
  | _ => false

/-- Host-visible in-flight-fence state.  The fence is created signalled
(`VK_FENCE_CREATE_SIGNALED_BIT`, vulkan_renderer_native.cpp:283). -/
structure FrameSync where
  fenceSignaled : Bool
  deriving Repr, DecidableEq

def initFrameSync : FrameSync := ⟨true⟩

/-- Function `beginFrame` as a step on the fence state: it blocks until the fence is
signalled, then resets it; since no other agent ever signals the fence, an
unsignalled fence means the wait never returns (`none`). -/
def beginFrameStep (s : FrameSync) : Option FrameSync :=
  if s.fenceSignaled then some ⟨false⟩ else none

/-- Function `endFrame` as a step on the fence state: it only presents — it submits
nothing and signals nothing, so the fence is untouched. -/
def endFrameStep (s : FrameSync) : FrameSync := s

/-- C3 (code bug).  `endFrame` performs no submission at all: its only
Vulkan call is the present (which waits on the never-signalled
render-finished semaphore), and consequently the second `beginFrame` of a
`beginFrame(); endFrame(); beginFrame()` run waits forever on the in-flight
fence reset by the first. -/
theorem c3_endFrame_presents_without_submit :
    (∀ ix, (endFrameTrace ix).all (fun c => !c.isSubmitCall) = true) ∧
    (∀ ix, endFrameTrace ix = [.queuePresent .renderFinished ix]) ∧
    (beginFrameStep initFrameSync).bind
        (fun s1 => beginFrameStep (endFrameStep s1)) = none :=
  ⟨fun _ => rfl, fun _ => rfl, rfl⟩

/-! ### `loadTexture` (C4, C7)

vk_texture.cpp:7-92: create the image, allocate and bind its memory,
create the image view, create the sampler, then register the texture under
a fresh handle.  Each failing sub-step is an immediate `return 0`; no
already-created object is destroyed on these paths.  The image and view
create-infos both use the constant `VK_FORMAT_R8G8B8A8_UNORM`; the
`format` argument is only logged. -/

/-- Constant `VK_FORMAT_R8G8B8A8_UNORM` (= 37), the fixed image/view format. -/
def VK_FORMAT_R8G8B8A8_UNORM : Nat := 37

/-- Kinds of Vulkan objects `loadTexture` creates. -/
inductive VkObjKind where
  | image
  | memory
  | imageView
  | sampler
  deriving Repr, DecidableEq

/-- The `Texture` struct (vulkan_renderer_native.h:32-37), with the
creation parameters recorded from the create-info structs. -/
structure Texture where
  image : Nat
  imageView : Nat
  sampler : Nat
  memory : Nat
  imageFormat : Nat
  viewFormat : Nat
  width : Nat
  height : Nat
  deriving Repr, DecidableEq

/-- Outcome of the four Vulkan sub-calls of `loadTexture`. -/
structure TexEnv where
  imageOk : Bool
  allocOk : Bool
  viewOk : Bool
  samplerOk : Bool
  deriving Repr, DecidableEq

/-- Texture-loading view of the renderer state: the handle counter, a
fresh-id source for created Vulkan objects, the `textures` table and the
set of live (created, not destroyed) Vulkan objects. -/
structure TexState where
  nextResourceId : Nat
  nextObjId : Nat
  textures : List (Nat × Texture)
  liveObjs : List (VkObjKind × Nat)
  deriving Repr, DecidableEq

def initTexState : TexState := ⟨1, 0, [], []⟩

/-- Function `loadTexture(pixels, width, height, format)` (vk_texture.cpp:7-92). -/
def loadTexture (env : TexEnv) (width height format : Nat) (s : TexState) :
    Nat × TexState :=
  if env.imageOk = false then (0, s)
  else
    let imgId := s.nextObjId
    let s1 := { s with nextObjId := s.nextObjId + 1,
                       liveObjs := s.liveObjs ++ [(VkObjKind.image, imgId)] }
    if env.allocOk = false then (0, s1)
    else
      let memId := s1.nextObjId
      let s2 := { s1 with nextObjId := s1.nextObjId + 1,
                          liveObjs := s1.liveObjs ++ [(VkObjKind.memory, memId)] }
      if env.viewOk = false then (0, s2)
      else
        let viewId := s2.nextObjId
        let s3 := { s2 with nextObjId := s2.nextObjId + 1,
                            liveObjs := s2.liveObjs ++ [(VkObjKind.imageView, viewId)] }
        if env.samplerOk = false then (0, s3)
        else
          let sampId := s3.nextObjId
          let s4 := { s3 with nextObjId := s3.nextObjId + 1,
                              liveObjs := s3.liveObjs ++ [(VkObjKind.sampler, sampId)] }
          let tex : Texture :=
            ⟨imgId, viewId, sampId, memId, VK_FORMAT_R8G8B8A8_UNORM,
             VK_FORMAT_R8G8B8A8_UNORM, width, height⟩
          (s4.nextResourceId,
           { s4 with nextResourceId := (s4.nextResourceId + 1) % U64,
                     textures := s4.textures ++ [(s4.nextResourceId, tex)] })

def c4AllocFailEnv : TexEnv := ⟨true, false, true, true⟩

/-- C4 (counterexample).  When `vkAllocateMemory` fails, `loadTexture`
returns the sentinel 0 and registers nothing — but the image created by the
first sub-step is still live and referenced by no table entry: a live,
unregistered object is left behind. -/
theorem c4_partial_failure_leaves_live_image_cex :
    (loadTexture c4AllocFailEnv 4 4 37 initTexState).1 = 0 ∧
    (loadTexture c4AllocFailEnv 4 4 37 initTexState).2.textures = [] ∧
    (VkObjKind.image, 0) ∈ (loadTexture c4AllocFailEnv 4 4 37 initTexState).2.liveObjs := by
  decide

/-- C4 (amended).  Whenever a sub-step of `loadTexture` fails, the call
returns the sentinel handle 0 and adds no entry to the texture table (so no
handle is issued and no later lookup can reach the partial resource) — but
the objects created by the sub-steps before the failing one are *not*
destroyed: they stay in the live set, unreferenced by the table. -/
theorem c4_failed_loadTexture_no_entry (env : TexEnv) (w h f : Nat) (s : TexState)
    (hfail : env.imageOk = false ∨ env.allocOk = false ∨ env.viewOk = false ∨
      env.samplerOk = false) :
    (loadTexture env w h f s).1 = 0 ∧
    (loadTexture env w h f s).2.textures = s.textures ∧
    (env.imageOk = true →
      (VkObjKind.image, s.nextObjId) ∈ (loadTexture env w h f s).2.liveObjs) ∧
    (env.imageOk = true → env.allocOk = true →
      (VkObjKind.memory, s.nextObjId + 1) ∈ (loadTexture env w h f s).2.liveObjs) ∧
    (env.imageOk = true → env.allocOk = true → env.viewOk = true →
      (VkObjKind.imageView, s.nextObjId + 2) ∈ (loadTexture env w h f s).2.liveObjs) := by
  obtain ⟨io, ao, vo, so⟩ := env
  cases io <;> cases ao <;> cases vo <;> cases so <;>
    simp_all [loadTexture]

/-- Witness for `c4_failed_loadTexture_no_entry` at a concrete failing run. -/
theorem c4_failed_loadTexture_no_entry_witness :
    (c4AllocFailEnv.imageOk = false ∨ c4AllocFailEnv.allocOk = false ∨
      c4AllocFailEnv.viewOk = false ∨ c4AllocFailEnv.samplerOk = false) ∧
    ((loadTexture c4AllocFailEnv 4 4 37 initTexState).1 = 0 ∧
     (loadTexture c4AllocFailEnv 4 4 37 initTexState).2.textures =
       initTexState.textures ∧
     (c4AllocFailEnv.imageOk = true →
       (VkObjKind.image, initTexState.nextObjId) ∈
         (loadTexture c4AllocFailEnv 4 4 37 initTexState).2.liveObjs) ∧
     (c4AllocFailEnv.imageOk = true → c4AllocFailEnv.allocOk = true →
       (VkObjKind.memory, initTexState.nextObjId + 1) ∈
         (loadTexture c4AllocFailEnv 4 4 37 initTexState).2.liveObjs) ∧
     (c4AllocFailEnv.imageOk = true → c4AllocFailEnv.allocOk = true →
       c4AllocFailEnv.viewOk = true →
       (VkObjKind.imageView, initTexState.nextObjId + 2) ∈
         (loadTexture c4AllocFailEnv 4 4 37 initTexState).2.liveObjs)) :=
  ⟨Or.inr (Or.inl rfl),
   c4_failed_loadTexture_no_entry c4AllocFailEnv 4 4 37 initTexState
     (Or.inr (Or.inl rfl))⟩

/-- C7 (confirmed).  `loadTexture` ignores its `format` argument: two
calls agreeing on everything but `format` produce identical results, and
every newly registered texture has image and view created with the fixed
`VK_FORMAT_R8G8B8A8_UNORM`. -/
theorem c7_loadTexture_format_independent (env : TexEnv) (w h f1 f2 : Nat)
    (s : TexState) :
    loadTexture env w h f1 s = loadTexture env w h f2 s ∧
    (∀ p ∈ (loadTexture env w h f1 s).2.textures,
      p ∈ s.textures ∨
        (p.2.imageFormat = VK_FORMAT_R8G8B8A8_UNORM ∧
         p.2.viewFormat = VK_FORMAT_R8G8B8A8_UNORM)) := by
  constructor
  · rfl
  · obtain ⟨io, ao, vo, so⟩ := env
    cases io <;> cases ao <;> cases vo <;> cases so <;>
      · intro p hp
        simp [loadTexture, List.mem_append] at hp
        first
          | (rcases hp with hp | hp
             · exact Or.inl hp
             · subst hp
               exact Or.inr ⟨rfl, rfl⟩)
          | exact Or.inl hp

/-- Witness for `c7_loadTexture_format_independent` at two concrete
`format` arguments. -/
theorem c7_loadTexture_format_independent_witness :
    loadTexture ⟨true, true, true, true⟩ 2 2 0 initTexState =
      loadTexture ⟨true, true, true, true⟩ 2 2 5 initTexState ∧
    (∀ p ∈ (loadTexture ⟨true, true, true, true⟩ 2 2 0 initTexState).2.textures,
      p ∈ initTexState.textures ∨
        (p.2.imageFormat = VK_FORMAT_R8G8B8A8_UNORM ∧
         p.2.viewFormat = VK_FORMAT_R8G8B8A8_UNORM)) :=
  c7_loadTexture_format_independent ⟨true, true, true, true⟩ 2 2 0 5 initTexState

/-! ### Swapchain teardown and rebuild (C5)

`destroySwapchain` (vulkan_renderer_native.cpp:445-465) destroys every
framebuffer, then every image view, then the render pass (if live), then
the swapchain (if live).  `recreateSwapchain`
(vulkan_renderer_native.cpp:626-633) waits for device idle, runs
`destroySwapchain` in full, then runs the same construction calls as the
tail of `setSurface` (vulkan_renderer_native.cpp:309-328):
`createSwapchain` (which also creates one image view per swapchain image),
`createRenderPass`, `createFramebuffers`, `createCommandBuffers` — reusing
the existing surface. -/

/-- The presentation objects owned by the surface manager. -/
structure SwapState where
  framebuffers : List Nat
  imageViews : List Nat
  renderPassLive : Bool
  swapchainLive : Bool
  deriving Repr, DecidableEq

/-- Events of the teardown / rebuild paths. -/
inductive SwapEv where
  | waitIdle
  | destroyFramebuffer (i : Nat)
  | destroyImageView (i : Nat)
  | destroyRenderPass
  | destroySwapchainObj
  | createSurfaceObj
  | createSwapchainObj
  | createImageView (i : Nat)
  | createRenderPassObj
  | createFramebuffer (i : Nat)
  | allocCommandBuffers
  deriving Repr, DecidableEq

/-- Trace of `destroySwapchain` (vulkan_renderer_native.cpp:445-465). -/
def destroySwapchainTrace (s : SwapState) : List SwapEv :=
  s.framebuffers.map SwapEv.destroyFramebuffer ++
  s.imageViews.map SwapEv.destroyImageView ++
  (if s.renderPassLive then [SwapEv.destroyRenderPass] else []) ++
  (if s.swapchainLive then [SwapEv.destroySwapchainObj] else [])

/-- The construction tail shared by `setSurface` and `recreateSwapchain`:
`createSwapchain` (the swapchain plus one view per swapchain image, `n`
reported by `vkGetSwapchainImagesKHR`), `createRenderPass`,
`createFramebuffers` (one per image view), `createCommandBuffers`. -/
def buildTrace (n : Nat) : List SwapEv :=
  (SwapEv.createSwapchainObj :: (List.range n).map SwapEv.createImageView) ++
  [SwapEv.createRenderPassObj] ++
  (List.range n).map SwapEv.createFramebuffer ++
  [SwapEv.allocCommandBuffers]

/-- Trace of `setSurface` (vulkan_renderer_native.cpp:309-328): create the
platform surface, then the construction tail. -/
def setSurfaceTrace (n : Nat) : List SwapEv :=
  SwapEv.createSurfaceObj :: buildTrace n

/-- Trace of `recreateSwapchain` (vulkan_renderer_native.cpp:626-633). -/
def recreateSwapchainTrace (s : SwapState) (n : Nat) : List SwapEv :=
  SwapEv.waitIdle :: destroySwapchainTrace s ++ buildTrace n

def SwapEv.isTeardown : SwapEv → Bool
  | .destroyFramebuffer _ => true
  | .destroyImageView _ => true
  | .destroyRenderPass => true
  | .destroySwapchainObj => true
  | _ => false

def SwapEv.isBuild : SwapEv → Bool
  | .createSurfaceObj => true
  | .createSwapchainObj => true
  | .createImageView _ => true
  | .createRenderPassObj => true
  | .createFramebuffer _ => true
  | .allocCommandBuffers => true
  | _ => false

def SwapEv.isDestroyFB : SwapEv → Bool
  | .destroyFramebuffer _ => true
  | _ => false

def SwapEv.isDestroyIV : SwapEv → Bool
  | .destroyImageView _ => true
  | _ => false

def SwapEv.isDestroyRP : SwapEv → Bool
  | .destroyRenderPass => true
  | _ => false

def SwapEv.isDestroySC : SwapEv → Bool
  | .destroySwapchainObj => true
  | _ => false

/-- In a concatenation whose left part has no `Q`-event and whose right
part has no `P`-event, every `P`-position strictly precedes every
`Q`-position. -/
theorem append_pred_pos_lt {α : Type} (t l1 l2 : List α) (P Q : α → Bool)
    (ht : t = l1 ++ l2)
    (h1 : ∀ z ∈ l1, Q z = false) (h2 : ∀ z ∈ l2, P z = false)
    (i j : Nat) (x y : α)
    (hx : t[i]? = some x) (hy : t[j]? = some y)
    (hP : P x = true) (hQ : Q y = true) : i < j := by
  subst ht
  have hi1 : i < l1.length := by
    by_contra hge
    push_neg at hge
    rw [List.getElem?_append_right hge] at hx
    have hmem : x ∈ l2 := List.getElem?_mem hx
    rw [h2 x hmem] at hP
    cases hP
  have hj1 : l1.length ≤ j := by
    by_contra hlt
    push_neg at hlt
    rw [List.getElem?_append_left hlt] at hy
    have hmem : y ∈ l1 := List.getElem?_mem hy
    rw [h1 y hmem] at hQ
    cases hQ
  omega

theorem mem_ite_singleton {α : Type} {c : Prop} [Decidable c] {e x : α}
    (h : x ∈ (if c then [e] else [])) : x = e := by
  by_cases hc : c
  · rw [if_pos hc] at h
    simpa using h
  · rw [if_neg hc] at h
    simp at h

theorem buildTrace_not_teardown (n : Nat) :
    ∀ z ∈ buildTrace n, SwapEv.isTeardown z = false := by
  intro z hz
  cases z <;> first | rfl | simp [buildTrace] at hz

theorem not_teardown_kinds (z : SwapEv) (h : SwapEv.isTeardown z = false) :
    SwapEv.isDestroyFB z = false ∧ SwapEv.isDestroyIV z = false ∧
    SwapEv.isDestroyRP z = false ∧ SwapEv.isDestroySC z = false := by
  cases z <;> simp_all [SwapEv.isTeardown, SwapEv.isDestroyFB,
    SwapEv.isDestroyIV, SwapEv.isDestroyRP, SwapEv.isDestroySC]

theorem teardown_not_build (z : SwapEv) (h : SwapEv.isTeardown z = true) :
    SwapEv.isBuild z = false := by
  cases z <;> simp_all [SwapEv.isTeardown, SwapEv.isBuild]

theorem destroySwapchainTrace_teardown (s : SwapState) :
    ∀ z ∈ destroySwapchainTrace s, SwapEv.isTeardown z = true := by
  intro z hz
  simp only [destroySwapchainTrace, List.mem_append, List.mem_map] at hz
  rcases hz with ((⟨i, -, rfl⟩ | ⟨i, -, rfl⟩) | h) | h
  · rfl
  · rfl
  · rw [mem_ite_singleton h]; rfl
  · rw [mem_ite_singleton h]; rfl

/-- C5 (amended).  `recreateSwapchain` first blocks for device idle,
then destroys, in order, all framebuffers, then all image views, then the
render pass, then the swapchain — completing the whole teardown before any
rebuild step — and then rebuilds everything with exactly the construction
tail of `setSurface` (swapchain, image views, render pass, framebuffers,
command buffers), reusing the existing surface. -/
theorem c5_recreate_teardown_before_rebuild (s : SwapState) (n : Nat) :
    recreateSwapchainTrace s n =
      SwapEv.waitIdle :: (destroySwapchainTrace s ++ (setSurfaceTrace n).drop 1) ∧
    SwapEv.createSurfaceObj ∉ recreateSwapchainTrace s n ∧
    (recreateSwapchainTrace s n).head? = some SwapEv.waitIdle ∧
    (∀ (i j : Nat) (x y : SwapEv), (recreateSwapchainTrace s n)[i]? = some x →
      (recreateSwapchainTrace s n)[j]? = some y →
      x.isTeardown = true → y.isBuild = true → i < j) ∧
    (∀ (i j : Nat) (x y : SwapEv), (recreateSwapchainTrace s n)[i]? = some x →
      (recreateSwapchainTrace s n)[j]? = some y →
      x.isDestroyFB = true → y.isDestroyIV = true → i < j) ∧
    (∀ (i j : Nat) (x y : SwapEv), (recreateSwapchainTrace s n)[i]? = some x →
      (recreateSwapchainTrace s n)[j]? = some y →
      x.isDestroyIV = true → y.isDestroyRP = true → i < j) ∧
    (∀ (i j : Nat) (x y : SwapEv), (recreateSwapchainTrace s n)[i]? = some x →
      (recreateSwapchainTrace s n)[j]? = some y →
      x.isDestroyRP = true → y.isDestroySC = true → i < j) := by
  refine ⟨rfl, ?_, rfl, ?_, ?_, ?_, ?_⟩
  · intro hmem
    by_cases hrp : s.renderPassLive <;> by_cases hsc : s.swapchainLive <;>
      simp [recreateSwapchainTrace, destroySwapchainTrace, buildTrace,
        hrp, hsc] at hmem
  · intro i j x y hx hy hP hQ
    refine append_pred_pos_lt (recreateSwapchainTrace s n)
      (SwapEv.waitIdle :: destroySwapchainTrace s) (buildTrace n)
      SwapEv.isTeardown SwapEv.isBuild rfl ?_ (buildTrace_not_teardown n)
      i j x y hx hy hP hQ
    intro z hz
    rcases List.mem_cons.1 hz with rfl | hz
    · rfl
    · exact teardown_not_build z (destroySwapchainTrace_teardown s z hz)
  · intro i j x y hx hy hP hQ
    refine append_pred_pos_lt (recreateSwapchainTrace s n)
      (SwapEv.waitIdle :: s.framebuffers.map SwapEv.destroyFramebuffer)
      ((s.imageViews.map SwapEv.destroyImageView ++
        ((if s.renderPassLive then [SwapEv.destroyRenderPass] else []) ++
         (if s.swapchainLive then [SwapEv.destroySwapchainObj] else []))) ++
        buildTrace n)
      SwapEv.isDestroyFB SwapEv.isDestroyIV ?_ ?_ ?_ i j x y hx hy hP hQ
    · simp [recreateSwapchainTrace, destroySwapchainTrace, List.append_assoc]
    · intro z hz
      rcases List.mem_cons.1 hz with rfl | hz
      · rfl
      · obtain ⟨k, -, rfl⟩ := List.mem_map.1 hz
        rfl
    · intro z hz
      rcases List.mem_append.1 hz with hz | hz
      · rcases List.mem_append.1 hz with hz | hz
        · obtain ⟨k, -, rfl⟩ := List.mem_map.1 hz
          rfl
        · rcases List.mem_append.1 hz with hz | hz
          · rw [mem_ite_singleton hz]; rfl
          · rw [mem_ite_singleton hz]; rfl
      · exact (not_teardown_kinds z (buildTrace_not_teardown n z hz)).1
  · intro i j x y hx hy hP hQ
    refine append_pred_pos_lt (recreateSwapchainTrace s n)
      (SwapEv.waitIdle :: (s.framebuffers.map SwapEv.destroyFramebuffer ++
        s.imageViews.map SwapEv.destroyImageView))
      (((if s.renderPassLive then [SwapEv.destroyRenderPass] else []) ++
        (if s.swapchainLive then [SwapEv.destroySwapchainObj] else [])) ++
        buildTrace n)
      SwapEv.isDestroyIV SwapEv.isDestroyRP ?_ ?_ ?_ i j x y hx hy hP hQ
    · simp [recreateSwapchainTrace, destroySwapchainTrace, List.append_assoc]
    · intro z hz
      rcases List.mem_cons.1 hz with rfl | hz
      · rfl
      · rcases List.mem_append.1 hz with hz | hz <;>
          · obtain ⟨k, -, rfl⟩ := List.mem_map.1 hz
            rfl
    · intro z hz
      rcases List.mem_append.1 hz with hz | hz
      · rcases List.mem_append.1 hz with hz | hz
        · rw [mem_ite_singleton hz]; rfl
        · rw [mem_ite_singleton hz]; rfl
      · exact (not_teardown_kinds z (buildTrace_not_teardown n z hz)).2.1
  · intro i j x y hx hy hP hQ
    refine append_pred_pos_lt (recreateSwapchainTrace s n)
      (SwapEv.waitIdle :: (s.framebuffers.map SwapEv.destroyFramebuffer ++
        (s.imageViews.map SwapEv.destroyImageView ++
         (if s.renderPassLive then [SwapEv.destroyRenderPass] else []))))
      ((if s.swapchainLive then [SwapEv.destroySwapchainObj] else []) ++
        buildTrace n)
      SwapEv.isDestroyRP SwapEv.isDestroySC ?_ ?_ ?_ i j x y hx hy hP hQ
    · simp [recreateSwapchainTrace, destroySwapchainTrace, List.append_assoc]
    · intro z hz
      rcases List.mem_cons.1 hz with rfl | hz
      · rfl
      · rcases List.mem_append.1 hz with hz | hz
        · obtain ⟨k, -, rfl⟩ := List.mem_map.1 hz
          rfl
        · rcases List.mem_append.1 hz with hz | hz
          · obtain ⟨k, -, rfl⟩ := List.mem_map.1 hz
            rfl
          · rw [mem_ite_singleton hz]; rfl
    · intro z hz
      rcases List.mem_append.1 hz with hz | hz
      · rw [mem_ite_singleton hz]; rfl
      · exact (not_teardown_kinds z (buildTrace_not_teardown n z hz)).2.2.1

def c5State : SwapState := ⟨[10], [20], true, true⟩

/-- C5 (counterexample).  The claim states the destruction order
framebuffers → render pass → image views → swapchain, but the code destroys
the image views *before* the render pass: in the concrete trace the only
render-pass destruction sits at index 3, after the image-view destruction
at index 2. -/
theorem c5_destruction_order_cex :
    (recreateSwapchainTrace c5State 1)[2]? = some (SwapEv.destroyImageView 20) ∧
    (recreateSwapchainTrace c5State 1)[3]? = some SwapEv.destroyRenderPass ∧
    ((recreateSwapchainTrace c5State 1).filter SwapEv.isDestroyRP).length = 1 ∧
    (recreateSwapchainTrace c5State 1).findIdx SwapEv.isDestroyRP = 3 ∧
    (recreateSwapchainTrace c5State 1).findIdx SwapEv.isDestroyIV = 2 := by
  decide

/-- Witness for `c5_recreate_teardown_before_rebuild` at a concrete state:
the framebuffer destruction at index 1 precedes the image-view destruction
at index 2. -/
theorem c5_recreate_teardown_before_rebuild_witness :
    recreateSwapchainTrace c5State 1 =
      SwapEv.waitIdle ::
        (destroySwapchainTrace c5State ++ (setSurfaceTrace 1).drop 1) ∧
    (1 : Nat) < 2 :=
  ⟨(c5_recreate_teardown_before_rebuild c5State 1).1,
   (c5_recreate_teardown_before_rebuild c5State 1).2.2.2.2.1 1 2
     (SwapEv.destroyFramebuffer 10) (SwapEv.destroyImageView 20)
     (by decide) (by decide) (by decide) (by decide)⟩

/-! ### `getVulkanInfo` (C8)

vk_utils.cpp:24-69 (and equally vulkan_renderer_native.cpp:526-554):
`apiVersion` is rendered as
`to_string(VK_VERSION_MAJOR(v)) + "." + to_string(VK_VERSION_MINOR(v)) +
"." + to_string(VK_VERSION_PATCH(v))`, but `driverVersion` is rendered as
`std::to_string(deviceProperties.driverVersion)` — the raw packed integer
in decimal, not a dotted string. -/

/-- Macro `VK_VERSION_MAJOR(v)`: `v >> 22`. -/
def vkVersionMajor (v : Nat) : Nat := v >>> 22

/-- Macro `VK_VERSION_MINOR(v)`: `(v >> 12) & 0x3FF`. -/
def vkVersionMinor (v : Nat) : Nat := (v >>> 12) &&& 1023

/-- Macro `VK_VERSION_PATCH(v)`: `v & 0xFFF`. -/
def vkVersionPatch (v : Nat) : Nat := v &&& 4095

/-- Dotted `major.minor.patch` rendering of a packed version integer. -/
def dottedVersion (v : Nat) : String :=
  Nat.repr (vkVersionMajor v) ++ "." ++ Nat.repr (vkVersionMinor v) ++ "." ++
    Nat.repr (vkVersionPatch v)

/-- Rendering of `VkPhysicalDeviceProperties::deviceType`
(vk_utils.cpp:42-57); 1 = integrated, 2 = discrete, 3 = virtual, 4 = CPU. -/
def deviceTypeName (t : Nat) : String :=
  if t = 2 then "Discrete GPU"
  else if t = 1 then "Integrated GPU"
  else if t = 3 then "Virtual GPU"
  else if t = 4 then "CPU"
  else "Other"

/-- The `VkPhysicalDeviceProperties` fields `getVulkanInfo` reads. -/
structure PhysProps where
  deviceName : String
  apiVersion : Nat
  driverVersion : Nat
  vendorID : Nat
  maxImageDimension2D : Nat
  deviceType : Nat
  deriving Repr, DecidableEq

/-- The `VulkanInfo` struct (vulkan_renderer_native.h:13-22). -/
structure VulkanInfo where
  deviceName : String
  apiVersion : String
  driverVersion : String
  vendorId : Nat
  deviceType : String
  maxTextureSize : Nat
  supportsRayTracing : Bool
  supportsMeshShaders : Bool
  deriving Repr, DecidableEq

/-- Function `getVulkanInfo` (vk_utils.cpp:24-69). -/
def getVulkanInfo (p : PhysProps) : VulkanInfo :=
  { deviceName := p.deviceName
    apiVersion := dottedVersion p.apiVersion
    driverVersion := Nat.repr p.driverVersion
    vendorId := p.vendorID
    deviceType := deviceTypeName p.deviceType
    maxTextureSize := p.maxImageDimension2D
    supportsRayTracing := false
    supportsMeshShaders := false }

def c8Props : PhysProps :=
  { deviceName := "Adreno", apiVersion := 4206592, driverVersion := 4194304,
    vendorID := 20803, maxImageDimension2D := 4096, deviceType := 1 }

/-- C8 (counterexample).  At a device whose packed driver version is
`4194304` (i.e. 1.0.0), `getVulkanInfo` reports `apiVersion` dotted but
`driverVersion` as the raw decimal string `"4194304"`, not the dotted
`"1.0.0"` the claim requires. -/
theorem c8_driver_version_not_dotted_cex :
    (getVulkanInfo c8Props).apiVersion = "1.3.0" ∧
    (getVulkanInfo c8Props).driverVersion = "4194304" ∧
    dottedVersion c8Props.driverVersion = "1.0.0" ∧
    (getVulkanInfo c8Props).driverVersion ≠ dottedVersion c8Props.driverVersion := by
  refine ⟨by decide, by decide, by decide, by decide⟩

/-- C8 (amended).  `getVulkanInfo` formats `apiVersion` as the dotted
`major.minor.patch` string decoded from the packed version integer
(`major = v / 2^22`, `minor = v / 2^12 mod 2^10`, `patch = v mod 2^12`),
while `driverVersion` is the raw packed integer rendered in decimal. -/
theorem c8_api_version_dotted_driver_raw (p : PhysProps) :
    (getVulkanInfo p).apiVersion =
      Nat.repr (p.apiVersion / 2 ^ 22) ++ "." ++
      Nat.repr (p.apiVersion / 2 ^ 12 % 2 ^ 10) ++ "." ++
      Nat.repr (p.apiVersion % 2 ^ 12) ∧
    (getVulkanInfo p).driverVersion = Nat.repr p.driverVersion := by
  constructor
  · show dottedVersion p.apiVersion = _
    unfold dottedVersion vkVersionMajor vkVersionMinor vkVersionPatch
    rw [Nat.shiftRight_eq_div_pow, Nat.shiftRight_eq_div_pow]
    rw [show (1023 : Nat) = 2 ^ 10 - 1 by norm_num,
        show (4095 : Nat) = 2 ^ 12 - 1 by norm_num]
    rw [Nat.and_pow_two_sub_one_eq_mod, Nat.and_pow_two_sub_one_eq_mod]
  · rfl

/-! ### `shutdown` and destruction idempotence (C9)

`shutdown` (vulkan_renderer_native.cpp:81-135): when the device is live it
waits for idle, clears the resource tables, destroys the guarded sync
objects, runs `destroySwapchain`, destroys the guarded pools and the
device; the surface and the instance are destroyed afterwards under their
own null guards.  Every destroyed handle is reset to `VK_NULL_HANDLE`, so
a second run finds everything null and does nothing. -/

/-- Destroyable renderer objects: liveness flags plus object lists. -/
structure RendererState where
  deviceLive : Bool
  instanceLive : Bool
  surfaceLive : Bool
  inFlightFenceLive : Bool
  renderFinishedSemaphoreLive : Bool
  imageAvailableSemaphoreLive : Bool
  descriptorPoolLive : Bool
  commandPoolLive : Bool
  computeCommandPoolLive : Bool
  renderPassLive : Bool
  swapchainLive : Bool
  framebuffers : List Nat
  imageViews : List Nat
  meshes : List Nat
  textures : List Nat
  shaders : List Nat
  pipelines : List Nat
  deriving Repr, DecidableEq

/-- Constructor state (vulkan_renderer_native.cpp:11-38): everything null. -/
def initRendererState : RendererState :=
  ⟨false, false, false, false, false, false, false, false, false, false,
   false, [], [], [], [], [], []⟩

/-- Destruction-side events of `shutdown` / `destroySwapchain`. -/
inductive ShutEv where
  | waitDeviceIdle
  | clearResourceTables
  | destroyFence
  | destroyRenderFinishedSem
  | destroyImageAvailableSem
  | destroyFramebufferObj (i : Nat)
  | destroyImageViewObj (i : Nat)
  | destroyRenderPassObj
  | destroySwapchainHandle
  | destroyDescriptorPoolObj
  | destroyCommandPoolObj
  | destroyComputeCommandPoolObj
  | destroyDeviceObj
  | destroySurfaceObj
  | destroyInstanceObj
  deriving Repr, DecidableEq

/-- Function `destroySwapchain` (vulkan_renderer_native.cpp:445-465): destroy all
framebuffers and image views (clearing the vectors), then the render pass
and the swapchain under their null guards, resetting them to null. -/
def destroySwapchainRun (s : RendererState) : RendererState × List ShutEv :=
  ({ s with framebuffers := [], imageViews := [],
            renderPassLive := false, swapchainLive := false },
   s.framebuffers.map ShutEv.destroyFramebufferObj ++
   s.imageViews.map ShutEv.destroyImageViewObj ++
   (if s.renderPassLive then [ShutEv.destroyRenderPassObj] else []) ++
   (if s.swapchainLive then [ShutEv.destroySwapchainHandle] else []))

/-- Function `shutdown` (vulkan_renderer_native.cpp:81-135): each destruction is
guarded by a null check and nulls its handle afterwards. -/
def shutdownRun (s : RendererState) : RendererState × List ShutEv :=
  if s.deviceLive then
    ({ s with meshes := [], textures := [], shaders := [], pipelines := [],
              inFlightFenceLive := false, renderFinishedSemaphoreLive := false,
              imageAvailableSemaphoreLive := false,
              framebuffers := [], imageViews := [],
              renderPassLive := false, swapchainLive := false,
              descriptorPoolLive := false, commandPoolLive := false,
              computeCommandPoolLive := false, deviceLive := false,
              surfaceLive := false, instanceLive := false },
     [ShutEv.waitDeviceIdle, ShutEv.clearResourceTables] ++
     (if s.inFlightFenceLive then [ShutEv.destroyFence] else []) ++
     (if s.renderFinishedSemaphoreLive
        then [ShutEv.destroyRenderFinishedSem] else []) ++
     (if s.imageAvailableSemaphoreLive
        then [ShutEv.destroyImageAvailableSem] else []) ++
     (destroySwapchainRun s).2 ++
     (if s.descriptorPoolLive then [ShutEv.destroyDescriptorPoolObj] else []) ++
     (if s.commandPoolLive then [ShutEv.destroyCommandPoolObj] else []) ++
     (if s.computeCommandPoolLive
        then [ShutEv.destroyComputeCommandPoolObj] else []) ++
     [ShutEv.destroyDeviceObj] ++
     (if s.surfaceLive then [ShutEv.destroySurfaceObj] else []) ++
     (if s.instanceLive then [ShutEv.destroyInstanceObj] else []))
  else
    ({ s with surfaceLive := false, instanceLive := false },
     (if s.surfaceLive then [ShutEv.destroySurfaceObj] else []) ++
     (if s.instanceLive then [ShutEv.destroyInstanceObj] else []))

/-- C9 (confirmed).  Destruction is idempotent: after one `shutdown`
(from any state) a second `shutdown` performs no destruction and leaves the
state unchanged; likewise `destroySwapchain` twice; and `shutdown` on a
never-initialized (constructor) state performs no destruction at all. -/
theorem c9_shutdown_idempotent (s : RendererState) :
    shutdownRun (shutdownRun s).1 = ((shutdownRun s).1, []) ∧
    destroySwapchainRun (destroySwapchainRun s).1 =
      ((destroySwapchainRun s).1, []) ∧
    (shutdownRun initRendererState).2 = [] := by
  obtain ⟨dv, il, sl, ff, rf, ia, dp, cp, cc, rp, sw, fb, iv, me, te, sh, pi⟩ := s
  refine ⟨?_, ?_, ?_⟩
  · cases dv <;> simp [shutdownRun, destroySwapchainRun]
  · simp [destroySwapchainRun]
  · rfl

/-! ### `findMemoryType` and `createBuffer` (C10)

`findMemoryType` (vk_utils.cpp:9-22, identically vk_device.cpp:135-148 and
vulkan_renderer_native.cpp:556-568) scans `memoryTypes[0..count)` in order
and returns the first index `i` with `typeFilter & (1 << i)` set and
`(propertyFlags & properties) == properties`; when no index qualifies it
logs and returns 0.  `createBuffer` (vk_buffer.cpp:8-40) feeds the result
straight into `VkMemoryAllocateInfo::memoryTypeIndex` and calls
`vkAllocateMemory` — a no-match 0 is indistinguishable from a genuine
index 0 match. -/

/-- The loop condition of `findMemoryType` at index `i` for property mask
`flags`. -/
def memTypeMatches (typeFilter properties flags : Nat) (i : Nat) : Bool :=
  (typeFilter &&& (2 ^ i) != 0) && (flags &&& properties == properties)

def findMemoryTypeAux (typeFilter properties : Nat) : List Nat → Nat → Nat
  | [], _ => 0
  | m :: rest, i =>
      if memTypeMatches typeFilter properties m i then i
      else findMemoryTypeAux typeFilter properties rest (i + 1)

/-- Function `findMemoryType(typeFilter, properties)` over the device's memory-type
property masks. -/
def findMemoryType (typeFilter properties : Nat) (memTypes : List Nat) : Nat :=
  findMemoryTypeAux typeFilter properties memTypes 0

theorem findMemoryTypeAux_eq (tf pr : Nat) :
    ∀ (mts : List Nat) (i : Nat),
      findMemoryTypeAux tf pr mts i =
        (((mts.enumFrom i).find? (fun q => memTypeMatches tf pr q.2 q.1)).map
          Prod.fst).getD 0 := by
  intro mts
  induction mts with
  | nil => intro i; rfl
  | cons m rest ih =>
      intro i
      show (if memTypeMatches tf pr m i then i
            else findMemoryTypeAux tf pr rest (i + 1)) = _
      rw [List.enumFrom_cons]
      by_cases h : memTypeMatches tf pr m i = true
      · rw [if_pos h, List.find?_cons_of_pos _ (by simpa using h)]
        rfl
      · rw [if_neg (by simpa using h),
            List.find?_cons_of_neg _ (by simpa using h), ih]

/-- Outcome of the Vulkan calls `createBuffer` makes, plus the memory
properties of the device it runs against. -/
structure BufEnv where
  createBufferOk : Bool
  allocOk : Bool
  memoryTypeBits : Nat
  allocationSize : Nat
  memTypes : List Nat
  deriving Repr, DecidableEq

/-- Vulkan calls of `createBuffer`. -/
inductive BufEv where
  | createBufferCall (size usage : Nat)
  | allocateMemoryCall (size memoryTypeIndex : Nat)
  | bindBufferMemoryCall
  deriving Repr, DecidableEq

/-- Function `createBuffer(size, usage, properties, ...)` (vk_buffer.cpp:8-40):
create the buffer (early return on failure), then allocate with
`memoryTypeIndex = findMemoryType(memRequirements.memoryTypeBits,
properties)` — unconditionally — and bind on success. -/
def createBuffer (env : BufEnv) (size usage properties : Nat) : List BufEv :=
  if env.createBufferOk = false then [BufEv.createBufferCall size usage]
  else
    [BufEv.createBufferCall size usage,
     BufEv.allocateMemoryCall env.allocationSize
       (findMemoryType env.memoryTypeBits properties env.memTypes)] ++
    (if env.allocOk then [BufEv.bindBufferMemoryCall] else [])

/-- C10 (confirmed).  `findMemoryType` returns the first index whose
filter bit is set and whose flags contain all required property bits
(`find?` over the indexed memory types); with no qualifying type it
returns 0 — indistinguishable from a genuine match at index 0, as the two
concrete devices `[1]` (flags match at index 0) and `[0]` (nothing
matches) show — and `createBuffer` then proceeds to call
`vkAllocateMemory` with exactly that index instead of reporting failure. -/
theorem c10_findMemoryType_first_match_or_zero (tf pr : Nat) (mts : List Nat)
    (env : BufEnv) (size usage properties : Nat)
    (henv : env.createBufferOk = true) :
    (findMemoryType tf pr mts =
      (((mts.enumFrom 0).find? (fun q => memTypeMatches tf pr q.2 q.1)).map
        Prod.fst).getD 0) ∧
    ((mts.enumFrom 0).find? (fun q => memTypeMatches tf pr q.2 q.1) = none →
      findMemoryType tf pr mts = 0) ∧
    (findMemoryType 1 1 [1] = 0 ∧ findMemoryType 1 1 [0] = 0 ∧
      memTypeMatches 1 1 1 0 = true ∧ memTypeMatches 1 1 0 0 = false) ∧
    BufEv.allocateMemoryCall env.allocationSize
      (findMemoryType env.memoryTypeBits properties env.memTypes) ∈
      createBuffer env size usage properties := by
  refine ⟨findMemoryTypeAux_eq tf pr mts 0, ?_, ⟨by decide, by decide, by decide, by decide⟩, ?_⟩
  · intro hnone
    show findMemoryTypeAux tf pr mts 0 = 0
    rw [findMemoryTypeAux_eq tf pr mts 0, hnone]
    rfl
  · rw [createBuffer, if_neg (by simp [henv])]
    simp

def c10Env : BufEnv :=
  { createBufferOk := true, allocOk := true, memoryTypeBits := 1,
    allocationSize := 256, memTypes := [0] }

/-- Witness for `c10_findMemoryType_first_match_or_zero` on a device where
no memory type qualifies: allocation is attempted with index 0 anyway. -/
theorem c10_findMemoryType_first_match_or_zero_witness :
    c10Env.createBufferOk = true ∧
    ((findMemoryType 1 1 c10Env.memTypes =
        (((c10Env.memTypes.enumFrom 0).find?
            (fun q => memTypeMatches 1 1 q.2 q.1)).map Prod.fst).getD 0) ∧
     ((c10Env.memTypes.enumFrom 0).find?
        (fun q => memTypeMatches 1 1 q.2 q.1) = none →
       findMemoryType 1 1 c10Env.memTypes = 0) ∧
     (findMemoryType 1 1 [1] = 0 ∧ findMemoryType 1 1 [0] = 0 ∧
       memTypeMatches 1 1 1 0 = true ∧ memTypeMatches 1 1 0 0 = false) ∧
     BufEv.allocateMemoryCall c10Env.allocationSize
       (findMemoryType c10Env.memoryTypeBits 1 c10Env.memTypes) ∈
       createBuffer c10Env 256 2 1) :=
  ⟨rfl, c10_findMemoryType_first_match_or_zero 1 1 c10Env.memTypes c10Env
    256 2 1 rfl⟩

end UmbraX
